import Mathlib

/-!
# USB tethering bridge driver (`usb-tethering-WF825.c`)

A shallow embedding of the driver's five entry points

* `usb_tether_probe`        (attach handler, source lines 31-51)
* `setup_net_device`        (interface allocation and registration, lines 54-69)
* `usb_tether_xmit`         (transmit entry point, lines 87-95)
* `usb_tether_rx_complete`  (receive completion handler, lines 101-124)
* `usb_tether_disconnect`   (detach handler, lines 126-139)

Each entry point is a pure function from its arguments (and, where it asks the
kernel for something, from the kernel's answers) to its return value, the
updated driver state and the ordered list of kernel primitives it invoked.
What the released objects of the kernel become under those primitives is a
separate layer, `kernel_step`, applied to the list of effects.
Pointers are natural numbers with `0` for `NULL`.  A dereference the C code
performs on memory it does not own (a `NULL` session, an index past the
endpoint array, a copy past the transfer buffer) makes the embedded function
return `none`.
-/

namespace UsbTether

/-! ## Data model -/

/-- A kernel pointer; `0` is `NULL`. -/
abbrev Ptr := Nat

/-- The two fields of `struct usb_endpoint_descriptor` the driver reads (both `__u8`). -/
structure usb_endpoint_descriptor where
  bEndpointAddress : Nat
  bmAttributes : Nat
deriving DecidableEq

/-- The part of `struct usb_host_interface` the driver reads: `desc.bNumEndpoints`
and the `endpoint[]` array. -/
structure usb_host_interface where
  bNumEndpoints : Nat
  endpoint : List usb_endpoint_descriptor
deriving DecidableEq

/-- Modelled from the spec: `struct usb_tether_priv` is used by the source but declared
nowhere in it.  The driver reads and writes exactly the three members below
(`priv->netdev`, `priv->rx_urb`, `priv->tx_urb`); the spec calls them the
network-interface handle, the receive-transfer handle and the transmit-transfer handle
of the Device Session. -/
structure usb_tether_priv where
  netdev : Ptr
  rx_urb : Ptr
  tx_urb : Ptr
deriving DecidableEq

/-- The part of `struct usb_interface` the driver reads: `cur_altsetting` and the
driver data returned by `usb_get_intfdata` (`none` is a `NULL` driver-data pointer). -/
structure usb_interface where
  cur_altsetting : usb_host_interface
  intfdata : Option usb_tether_priv
deriving DecidableEq

/-- A socket buffer: its address; `mac_header`, the bytes of the buffer that lie between
`skb->mac_header` and `skb->data`; `data`, the bytes from `skb->data` to `skb->tail`; and
the members `len`, `protocol` and `dev`. -/
structure sk_buff where
  addr : Ptr
  mac_header : List Nat
  data : List Nat
  len : Nat
  protocol : Nat
  dev : Ptr
deriving DecidableEq

/-- The members of `struct urb` the driver reads; `addr` is the address of the urb itself,
which is what `usb_submit_urb` receives. -/
structure urb where
  addr : Ptr
  status : Int
  actual_length : Nat
  transfer_buffer : List Nat
  context : Option usb_tether_priv
deriving DecidableEq

/-- The kernel primitives and externally visible stores the driver performs, with their
arguments (and, for the two allocators and the registration, the value the kernel returned).
`usb_kill_urb` is the transport's cancel-and-wait primitive.  `skb_member_call skb arg` is the
call `skb->dev_kfree_skb(arg)` through a member of the buffer at `skb`; it is not the kernel
primitive `dev_kfree_skb`. -/
inductive Effect where
  | pr_info_bulk_in (bEndpointAddress : Nat)
  | pr_info_bulk_out (bEndpointAddress : Nat)
  | pr_info_disconnected
  | alloc_etherdev (result : Ptr)
  | set_netdev_ops (netdev : Ptr)
  | register_netdev (netdev : Ptr) (result : Int)
  | unregister_netdev (netdev : Ptr)
  | free_netdev (netdev : Ptr)
  | netdev_alloc_skb (netdev : Ptr) (length : Nat) (result : Ptr)
  | netif_rx (skb : sk_buff)
  | dev_kfree_skb (skb : Ptr)
  | skb_member_call (skb : Ptr) (arg : Ptr)
  | usb_submit_urb (urb : Ptr)
  | usb_kill_urb (urb : Ptr)
  | usb_free_urb (urb : Ptr)
deriving DecidableEq

/-- The answers of the kernel the driver depends on.  `alloc_etherdev` and
`netdev_alloc_skb` answer `0` when the allocation fails.  `eth_proto` is the protocol
identifier `eth_type_trans` computes for the bytes at `skb->data` and a device. -/
structure Kernel where
  alloc_etherdev : Ptr
  register_netdev : Ptr → Int
  netdev_alloc_skb : Ptr → Nat → Ptr
  eth_proto : List Nat → Ptr → Nat

/-- The kernel objects a session refers to, as the kernel holds them: the allocated network
devices, those of them that are registered with the stack, and the allocated urbs.  An
address that is in none of the lists is not (or no longer) an object. -/
structure KernelObjects where
  netdevs : List Ptr
  registered : List Ptr
  urbs : List Ptr
deriving DecidableEq

/-! ## Constants of `linux/usb/ch9.h`, `linux/errno.h`, `linux/netdevice.h`, `linux/if_ether.h` -/

def USB_ENDPOINT_XFERTYPE_MASK : Nat := 0x03
def USB_ENDPOINT_XFER_BULK : Nat := 2
def USB_ENDPOINT_DIR_MASK : Nat := 0x80
def USB_DIR_IN : Nat := 0x80
def USB_DIR_OUT : Nat := 0
def ENOMEM : Int := 12
def NETDEV_TX_OK : Int := 0
def ETH_HLEN : Nat := 14

/-! ## Endpoint classification helpers (`linux/usb/ch9.h`) -/

def usb_endpoint_xfer_bulk (epd : usb_endpoint_descriptor) : Bool :=
  (epd.bmAttributes &&& USB_ENDPOINT_XFERTYPE_MASK) == USB_ENDPOINT_XFER_BULK

def usb_endpoint_dir_in (epd : usb_endpoint_descriptor) : Bool :=
  (epd.bEndpointAddress &&& USB_ENDPOINT_DIR_MASK) == USB_DIR_IN

def usb_endpoint_dir_out (epd : usb_endpoint_descriptor) : Bool :=
  (epd.bEndpointAddress &&& USB_ENDPOINT_DIR_MASK) == USB_DIR_OUT

def usb_endpoint_is_bulk_in (epd : usb_endpoint_descriptor) : Bool :=
  usb_endpoint_xfer_bulk epd && usb_endpoint_dir_in epd

def usb_endpoint_is_bulk_out (epd : usb_endpoint_descriptor) : Bool :=
  usb_endpoint_xfer_bulk epd && usb_endpoint_dir_out epd

/-! ## `usb_tether_probe` -/

/-- The body of the `for (i = 0; i < bNumEndpoints; i++)` loop of `usb_tether_probe`.
The body writes neither `i` nor `bNumEndpoints`, so the loop runs `bNumEndpoints - i`
more iterations; the first argument counts them.  `log` is what has been printed so far.
Reading `endpoint[i]` past the end of the array gives `none`. -/
def probe_loop (iface_desc : usb_host_interface) :
    Nat → Nat → List Effect → Option (List Effect)
  | 0, _, log => some log
  | remaining + 1, i, log =>
    match iface_desc.endpoint[i]? with
    | none => none
    | some endpoint =>
      if usb_endpoint_is_bulk_in endpoint then
        probe_loop iface_desc remaining (i + 1)
          (log ++ [Effect.pr_info_bulk_in endpoint.bEndpointAddress])
      else if usb_endpoint_is_bulk_out endpoint then
        probe_loop iface_desc remaining (i + 1)
          (log ++ [Effect.pr_info_bulk_out endpoint.bEndpointAddress])
      else
        probe_loop iface_desc remaining (i + 1) log

/-- The attach handler: scans the endpoints of `interface->cur_altsetting`, prints one line
per bulk endpoint, and returns `0`.  The result is the return value and the effects.
The `id` argument of the C function is never read. -/
def usb_tether_probe (interface : usb_interface) : Option (Int × List Effect) :=
  let iface_desc := interface.cur_altsetting
  match probe_loop iface_desc iface_desc.bNumEndpoints 0 [] with
  | none => none
  | some log => some (0, log)

/-! ## `setup_net_device` -/

/-- Allocates the network device, stores it in `priv->netdev`, binds the operations table
and registers the device.  The result is the return value, the session as the call leaves
it, and the effects.  `sizeof(struct usb_tether_priv)`, the argument of `alloc_etherdev`,
is a compile-time constant and is not recorded. -/
def setup_net_device (K : Kernel) (priv : usb_tether_priv) :
    Int × usb_tether_priv × List Effect :=
  let netdev := K.alloc_etherdev
  if netdev = 0 then
    (-ENOMEM, priv, [Effect.alloc_etherdev netdev])
  else
    let priv1 : usb_tether_priv := { priv with netdev := netdev }
    let ret := K.register_netdev netdev
    (ret, priv1,
      [Effect.alloc_etherdev netdev, Effect.set_netdev_ops netdev,
       Effect.register_netdev netdev ret])

/-! ## `usb_tether_xmit` -/

/-- The transmit entry point.  `priv = netdev_priv(netdev)` is computed and never used.
Source line 89 is `skb->` and the lines up to line 93 hold only comments, so lines 89-93 are
the one statement `skb->dev_kfree_skb(skb);`: a call through a member of the buffer, with the
buffer as argument.  It is followed by `return NETDEV_TX_OK;`.  The function contains no
call of the kernel primitive `dev_kfree_skb`. -/
def usb_tether_xmit (skb : sk_buff) (_netdev : Ptr) : Int × List Effect :=
  (NETDEV_TX_OK, [Effect.skb_member_call skb.addr skb.addr])

/-! ## `usb_tether_rx_complete` -/

/-- The buffer `netdev_alloc_skb(dev, length)` hands back: no data yet, `skb->dev = dev`. -/
def fresh_skb (addr : Ptr) (dev : Ptr) : sk_buff :=
  { addr := addr, mac_header := [], data := [], len := 0, protocol := 0, dev := dev }

/-- The statement `memcpy(skb_put(skb, n), src, n)`: extends the data area by `n` bytes and
fills them with the first `n` bytes of `src`.  Copying more bytes than `src` holds reads
past the transfer buffer: `none`. -/
def skb_put_memcpy (skb : sk_buff) (src : List Nat) (n : Nat) : Option sk_buff :=
  if src.length < n then none
  else some { skb with data := skb.data ++ src.take n, len := skb.len + n }

/-- The kernel's `skb_pull_inline(skb, len)`: when the buffer holds fewer than `len` bytes
nothing changes; otherwise `skb->data` advances by `len` bytes and `skb->len` drops by `len`.
The bytes passed over stay in the buffer, in front of `skb->data`. -/
def skb_pull_inline (skb : sk_buff) (len : Nat) : sk_buff :=
  if len > skb.len then skb
  else
    { skb with
      mac_header := skb.mac_header ++ skb.data.take len,
      data := skb.data.drop len,
      len := skb.len - len }

/-- The kernel's `eth_type_trans(skb, dev)` (`net/ethernet/eth.c`): sets `skb->dev`, resets
the mac header to `skb->data`, pulls the `ETH_HLEN` bytes of the Ethernet header, and returns
the protocol identifier of the frame.  The result is the return value and the buffer as the
call leaves it. -/
def eth_type_trans (K : Kernel) (skb : sk_buff) (dev : Ptr) : Nat × sk_buff :=
  let skb1 : sk_buff := { skb with dev := dev, mac_header := [] }
  (K.eth_proto skb1.data dev, skb_pull_inline skb1 ETH_HLEN)

/-- The receive completion handler.  The buffer handed to `netif_rx` is the one
`eth_type_trans` has worked on, with the returned protocol stored in `skb->protocol`.
The result of `usb_submit_urb` is discarded by the C code. -/
def usb_tether_rx_complete (K : Kernel) (u : urb) : Option (List Effect) :=
  if u.status ≠ 0 then
    some []
  else
    match u.context with
    | none => none
    | some priv =>
      let skb := K.netdev_alloc_skb priv.netdev u.actual_length
      if skb = 0 then
        some [Effect.netdev_alloc_skb priv.netdev u.actual_length skb]
      else
        match skb_put_memcpy (fresh_skb skb priv.netdev) u.transfer_buffer
            u.actual_length with
        | none => none
        | some filled =>
          let translated := eth_type_trans K filled priv.netdev
          let stamped : sk_buff := { translated.2 with protocol := translated.1 }
          some [Effect.netdev_alloc_skb priv.netdev u.actual_length skb,
                Effect.netif_rx stamped,
                Effect.usb_submit_urb u.addr]

/-! ## `usb_tether_disconnect` -/

/-- The detach handler.  The result is the interface (with its driver data) as the call
leaves it and the effects.  The handler writes no member of the session and does not
clear the interface's driver data, so the interface is returned as received.  A `NULL`
driver-data pointer is dereferenced by `priv->netdev`: `none`. -/
def usb_tether_disconnect (interface : usb_interface) :
    Option (usb_interface × List Effect) :=
  match interface.intfdata with
  | none => none
  | some priv =>
    some (interface,
      [Effect.unregister_netdev priv.netdev,
       Effect.usb_free_urb priv.rx_urb,
       Effect.usb_free_urb priv.tx_urb,
       Effect.free_netdev priv.netdev,
       Effect.pr_info_disconnected])

/-! ## The kernel objects under the driver's effects -/

/-- Removes an address from a list of objects. -/
def release (p : Ptr) (objects : List Ptr) : List Ptr :=
  objects.filter (fun q => q ≠ p)

/-- What one effect of the driver does to the kernel objects; `none` when the primitive is
applied to an address that is not an object (never allocated, or already released).
`unregister_netdev` takes the device off the stack; `free_netdev` releases a device that is
not registered; `usb_free_urb` releases an urb and ignores `NULL`; `alloc_etherdev` and
a successful `register_netdev` add what they return or register; `usb_submit_urb` and
`usb_kill_urb` need a live urb (`usb_kill_urb` ignores `NULL`).  Log lines and socket-buffer
primitives leave these objects as they are. -/
def kernel_step (objs : KernelObjects) : Effect → Option KernelObjects
  | Effect.alloc_etherdev result =>
    if result = 0 then some objs else some { objs with netdevs := result :: objs.netdevs }
  | Effect.set_netdev_ops netdev =>
    if netdev ∈ objs.netdevs then some objs else none
  | Effect.register_netdev netdev result =>
    if netdev ∈ objs.netdevs then
      (if result = 0 then some { objs with registered := netdev :: objs.registered }
       else some objs)
    else none
  | Effect.unregister_netdev netdev =>
    if netdev ∈ objs.netdevs then
      some { objs with registered := release netdev objs.registered }
    else none
  | Effect.free_netdev netdev =>
    if netdev ∈ objs.netdevs ∧ netdev ∉ objs.registered then
      some { objs with netdevs := release netdev objs.netdevs }
    else none
  | Effect.usb_submit_urb u =>
    if u ∈ objs.urbs then some objs else none
  | Effect.usb_kill_urb u =>
    if u = 0 ∨ u ∈ objs.urbs then some objs else none
  | Effect.usb_free_urb u =>
    if u = 0 then some objs
    else if u ∈ objs.urbs then some { objs with urbs := release u objs.urbs }
    else none
  | _ => some objs

/-- The kernel objects after a list of effects, in order. -/
def kernel_run : KernelObjects → List Effect → Option KernelObjects
  | objs, [] => some objs
  | objs, e :: rest =>
    match kernel_step objs e with
    | none => none
    | some next => kernel_run next rest

/-- One detach event: the handler runs on the interface and its effects act on the kernel
objects.  The result is the interface and the kernel objects as the run leaves them, and the
effects. -/
def detach (interface : usb_interface) (objs : KernelObjects) :
    Option (usb_interface × KernelObjects × List Effect) :=
  match usb_tether_disconnect interface with
  | none => none
  | some (after, effects) =>
    match kernel_run objs effects with
    | none => none
    | some objs1 => some (after, objs1, effects)

/-- Two detach events in a row on the same interface: the second run starts from the
interface and the kernel objects the first one left. -/
def detach_twice (interface : usb_interface) (objs : KernelObjects) :
    Option (usb_interface × KernelObjects × List Effect × List Effect) :=
  match detach interface objs with
  | none => none
  | some (after_first, objs1, first) =>
    match detach after_first objs1 with
    | none => none
    | some (after_second, objs2, second) => some (after_second, objs2, first, second)

/-- The session's network device and its two urbs are live objects (and the urbs are two). -/
def session_live (objs : KernelObjects) (priv : usb_tether_priv) : Prop :=
  priv.netdev ∈ objs.netdevs ∧ priv.rx_urb ∈ objs.urbs ∧ priv.tx_urb ∈ objs.urbs
    ∧ priv.rx_urb ≠ 0 ∧ priv.tx_urb ≠ 0 ∧ priv.rx_urb ≠ priv.tx_urb

instance (objs : KernelObjects) (priv : usb_tether_priv) :
    Decidable (session_live objs priv) := by
  unfold session_live; infer_instance

/-! ## Vocabulary of the properties -/

/-- The line `usb_tether_probe` prints for a bulk endpoint: its direction and its address. -/
def bulk_report (epd : usb_endpoint_descriptor) : Effect :=
  if usb_endpoint_dir_in epd then Effect.pr_info_bulk_in epd.bEndpointAddress
  else Effect.pr_info_bulk_out epd.bEndpointAddress

/-- The descriptors the loop of `usb_tether_probe` ranges over: the first `bNumEndpoints`
entries of the endpoint array. -/
def scanned (interface : usb_interface) : List usb_endpoint_descriptor :=
  interface.cur_altsetting.endpoint.take interface.cur_altsetting.bNumEndpoints

/-- The endpoint array holds at least `bNumEndpoints` descriptors. -/
def well_formed (interface : usb_interface) : Prop :=
  interface.cur_altsetting.bNumEndpoints ≤ interface.cur_altsetting.endpoint.length

instance (interface : usb_interface) : Decidable (well_formed interface) := by
  unfold well_formed; infer_instance

/-- Addresses reported as bulk-in, in the order reported. -/
def bulk_in_reports : List Effect → List Nat
  | [] => []
  | Effect.pr_info_bulk_in a :: rest => a :: bulk_in_reports rest
  | _ :: rest => bulk_in_reports rest

/-- Addresses reported as bulk-out, in the order reported. -/
def bulk_out_reports : List Effect → List Nat
  | [] => []
  | Effect.pr_info_bulk_out a :: rest => a :: bulk_out_reports rest
  | _ :: rest => bulk_out_reports rest

/-- Memory allocations: `alloc_etherdev` and `netdev_alloc_skb`. -/
def Effect.is_allocation : Effect → Bool
  | Effect.alloc_etherdev _ => true
  | Effect.netdev_alloc_skb _ _ _ => true
  | _ => false

/-- Registration of a network interface with the host stack. -/
def Effect.is_registration : Effect → Bool
  | Effect.register_netdev _ _ => true
  | _ => false

/-- Submission of a transfer. -/
def Effect.is_submission : Effect → Bool
  | Effect.usb_submit_urb _ => true
  | _ => false

/-- Delivery of a frame to the network stack. -/
def Effect.is_delivery : Effect → Bool
  | Effect.netif_rx _ => true
  | _ => false

/-- Cancellation of a transfer. -/
def Effect.is_cancellation : Effect → Bool
  | Effect.usb_kill_urb _ => true
  | _ => false

/-! ## Concrete scenarios -/

def ep_control : usb_endpoint_descriptor := { bEndpointAddress := 0x00, bmAttributes := 0 }
def ep_isoc_in : usb_endpoint_descriptor := { bEndpointAddress := 0x84, bmAttributes := 1 }
def ep_bulk_in_81 : usb_endpoint_descriptor := { bEndpointAddress := 0x81, bmAttributes := 2 }
def ep_bulk_in_83 : usb_endpoint_descriptor := { bEndpointAddress := 0x83, bmAttributes := 2 }
def ep_bulk_out_02 : usb_endpoint_descriptor := { bEndpointAddress := 0x02, bmAttributes := 2 }
def ep_interrupt : usb_endpoint_descriptor := { bEndpointAddress := 0x85, bmAttributes := 3 }

/-- An interface advertising the given descriptors, all of them counted by `bNumEndpoints`. -/
def interface_of (eps : List usb_endpoint_descriptor) : usb_interface :=
  { cur_altsetting := { bNumEndpoints := eps.length, endpoint := eps }, intfdata := none }

/-- The spec's attach scenario: `[control, bulk-in@0x81, bulk-out@0x02, interrupt]`. -/
def scenario_attach : usb_interface :=
  interface_of [ep_control, ep_bulk_in_81, ep_bulk_out_02, ep_interrupt]

/-- An interface with a control and an interrupt endpoint and no bulk endpoint at all. -/
def scenario_no_bulk : usb_interface :=
  interface_of [ep_control, ep_interrupt]

/-- An interface advertising two bulk-in endpoints and one bulk-out endpoint. -/
def scenario_two_bulk_in : usb_interface :=
  interface_of [ep_bulk_in_81, ep_bulk_in_83, ep_bulk_out_02]

/-- A session with network device `7`, receive urb `1` and transmit urb `2`. -/
def session_7 : usb_tether_priv := { netdev := 7, rx_urb := 1, tx_urb := 2 }

/-- A session that has no network device yet. -/
def session_fresh : usb_tether_priv := { netdev := 0, rx_urb := 0, tx_urb := 0 }

/-- An interface bound to `session_7`. -/
def bound_interface : usb_interface :=
  { cur_altsetting := { bNumEndpoints := 0, endpoint := [] }, intfdata := some session_7 }

/-- The kernel objects of `session_7`: device `7`, registered, and urbs `1` and `2`. -/
def objects_7 : KernelObjects := { netdevs := [7], registered := [7], urbs := [1, 2] }

/-- A socket buffer at address `9`. -/
def skb_9 : sk_buff :=
  { addr := 9, mac_header := [], data := List.range 60, len := 60, protocol := 0, dev := 7 }

/-- A kernel in which every allocation succeeds and registration succeeds. -/
def kernel_ok : Kernel :=
  { alloc_etherdev := 7, register_netdev := fun _ => 0,
    netdev_alloc_skb := fun _ _ => 9, eth_proto := fun _ _ => 0x0800 }

/-- A kernel in which `netdev_alloc_skb` fails. -/
def kernel_no_skb : Kernel :=
  { alloc_etherdev := 7, register_netdev := fun _ => 0,
    netdev_alloc_skb := fun _ _ => 0, eth_proto := fun _ _ => 0x0800 }

/-- A kernel in which `alloc_etherdev` succeeds and `register_netdev` fails with `-EBUSY`. -/
def kernel_register_fails : Kernel :=
  { alloc_etherdev := 7, register_netdev := fun _ => -16,
    netdev_alloc_skb := fun _ _ => 9, eth_proto := fun _ _ => 0x0800 }

/-- A kernel in which `alloc_etherdev` fails. -/
def kernel_no_netdev : Kernel :=
  { alloc_etherdev := 0, register_netdev := fun _ => 0,
    netdev_alloc_skb := fun _ _ => 9, eth_proto := fun _ _ => 0x0800 }

/-- A completed receive transfer of `session_7`: 64 bytes received into an 80-byte buffer. -/
def urb_64 (status : Int) : urb :=
  { addr := 1, status := status, actual_length := 64,
    transfer_buffer := List.range 80, context := some session_7 }

/-! ## Lemmas on the endpoint helpers -/

theorem dir_out_eq_not_dir_in (epd : usb_endpoint_descriptor) :
    usb_endpoint_dir_out epd = !usb_endpoint_dir_in epd := by
  unfold usb_endpoint_dir_out usb_endpoint_dir_in USB_ENDPOINT_DIR_MASK USB_DIR_OUT USB_DIR_IN
  have h := Nat.and_two_pow epd.bEndpointAddress 7
  norm_num at h
  rw [h]
  cases epd.bEndpointAddress.testBit 7 <;> simp

theorem is_bulk_in_iff (epd : usb_endpoint_descriptor) :
    usb_endpoint_is_bulk_in epd
      = (usb_endpoint_xfer_bulk epd && usb_endpoint_dir_in epd) := rfl

theorem is_bulk_out_iff (epd : usb_endpoint_descriptor) :
    usb_endpoint_is_bulk_out epd
      = (usb_endpoint_xfer_bulk epd && !usb_endpoint_dir_in epd) := by
  unfold usb_endpoint_is_bulk_out
  rw [dir_out_eq_not_dir_in]

/-! ## Lemmas on `usb_tether_probe` -/

/-- One iteration of the loop appends the report of the descriptor it visits, if bulk. -/
theorem probe_loop_eq (iface_desc : usb_host_interface) :
    ∀ (remaining i : Nat) (log : List Effect),
      i + remaining ≤ iface_desc.endpoint.length →
      probe_loop iface_desc remaining i log
        = some (log ++ (((iface_desc.endpoint.drop i).take remaining).filter
            usb_endpoint_xfer_bulk).map bulk_report) := by
  intro remaining
  induction remaining with
  | zero => intro i log _; simp [probe_loop]
  | succ k ih =>
    intro i log h
    have hi : i < iface_desc.endpoint.length := by omega
    have hk : (i + 1) + k ≤ iface_desc.endpoint.length := by omega
    rw [probe_loop, List.getElem?_eq_getElem hi, List.drop_eq_getElem_cons hi,
      List.take_succ_cons]
    simp only [is_bulk_in_iff, is_bulk_out_iff]
    cases hb : usb_endpoint_xfer_bulk iface_desc.endpoint[i] <;>
      cases hd : usb_endpoint_dir_in iface_desc.endpoint[i] <;>
      simp [ih (i + 1) _ hk, hb, hd, bulk_report]

/-- On a well-formed interface the probe returns `0` after printing, in descriptor order,
the report of every bulk endpoint among the first `bNumEndpoints` descriptors. -/
theorem usb_tether_probe_eq (interface : usb_interface) (h : well_formed interface) :
    usb_tether_probe interface
      = some (0, ((scanned interface).filter usb_endpoint_xfer_bulk).map bulk_report) := by
  unfold well_formed at h
  have := probe_loop_eq interface.cur_altsetting interface.cur_altsetting.bNumEndpoints 0 []
    (by omega)
  simp [usb_tether_probe, scanned, this]

theorem bulk_in_reports_map (l : List usb_endpoint_descriptor) :
    bulk_in_reports ((l.filter usb_endpoint_xfer_bulk).map bulk_report)
      = (l.filter usb_endpoint_is_bulk_in).map (fun e => e.bEndpointAddress) := by
  induction l with
  | nil => simp [bulk_in_reports]
  | cons e rest ih =>
    cases hb : usb_endpoint_xfer_bulk e <;> cases hd : usb_endpoint_dir_in e <;>
      simp [List.filter_cons, is_bulk_in_iff, hb, hd, bulk_report, bulk_in_reports, ih]

theorem bulk_out_reports_map (l : List usb_endpoint_descriptor) :
    bulk_out_reports ((l.filter usb_endpoint_xfer_bulk).map bulk_report)
      = (l.filter usb_endpoint_is_bulk_out).map (fun e => e.bEndpointAddress) := by
  induction l with
  | nil => simp [bulk_out_reports]
  | cons e rest ih =>
    cases hb : usb_endpoint_xfer_bulk e <;> cases hd : usb_endpoint_dir_in e <;>
      simp [List.filter_cons, is_bulk_out_iff, hb, hd, bulk_report, bulk_out_reports, ih]

/-- The head of a filtered list is the first element satisfying the predicate. -/
theorem head_filter_eq_find {α : Type} (p : α → Bool) (l : List α) :
    (l.filter p).head? = l.find? p := by
  induction l with
  | nil => rfl
  | cons a rest ih =>
    cases h : p a <;> simp [List.filter_cons, List.find?_cons, h, ih]

theorem find_of_exists {α : Type} (p : α → Bool) (l : List α)
    (h : ∃ a ∈ l, p a = true) : ∃ a, l.find? p = some a := by
  cases hf : l.find? p with
  | some a => exact ⟨a, rfl⟩
  | none =>
    obtain ⟨a, ha, hp⟩ := h
    have := List.find?_eq_none.mp hf a ha
    simp [hp] at this

theorem bulk_report_not_resource (epd : usb_endpoint_descriptor) :
    (bulk_report epd).is_allocation = false ∧ (bulk_report epd).is_registration = false
      ∧ (bulk_report epd).is_submission = false := by
  unfold bulk_report
  cases usb_endpoint_dir_in epd <;>
    simp [Effect.is_allocation, Effect.is_registration, Effect.is_submission]

/-! ## Lemmas on `usb_tether_disconnect` -/

theorem usb_tether_disconnect_eq (interface : usb_interface) (priv : usb_tether_priv)
    (h : interface.intfdata = some priv) :
    usb_tether_disconnect interface
      = some (interface,
          [Effect.unregister_netdev priv.netdev, Effect.usb_free_urb priv.rx_urb,
           Effect.usb_free_urb priv.tx_urb, Effect.free_netdev priv.netdev,
           Effect.pr_info_disconnected]) := by
  simp [usb_tether_disconnect, h]

/-! ## Lemmas on the kernel objects -/

theorem mem_release (p q : Ptr) (objects : List Ptr) :
    q ∈ release p objects ↔ q ∈ objects ∧ q ≠ p := by
  simp [release, List.mem_filter]

/-- The kernel objects after the five effects of the detach handler on a live session. -/
theorem kernel_run_disconnect (objs : KernelObjects) (priv : usb_tether_priv)
    (hlive : session_live objs priv) :
    kernel_run objs
        [Effect.unregister_netdev priv.netdev, Effect.usb_free_urb priv.rx_urb,
         Effect.usb_free_urb priv.tx_urb, Effect.free_netdev priv.netdev,
         Effect.pr_info_disconnected]
      = some { netdevs := release priv.netdev objs.netdevs,
               registered := release priv.netdev objs.registered,
               urbs := release priv.tx_urb (release priv.rx_urb objs.urbs) } := by
  obtain ⟨hnd, hrx, htx, hrx0, htx0, hne⟩ := hlive
  have htx1 : priv.tx_urb ∈ release priv.rx_urb objs.urbs :=
    (mem_release _ _ _).mpr ⟨htx, fun h => hne h.symm⟩
  have hreg : priv.netdev ∉ release priv.netdev objs.registered := by
    simp [mem_release]
  simp [kernel_run, kernel_step, hnd, hrx, hrx0, htx0, htx1, hreg]

/-- The detach handler's first effect cannot act once the session's device is released. -/
theorem kernel_run_disconnect_released (objs : KernelObjects) (priv : usb_tether_priv)
    (h : priv.netdev ∉ objs.netdevs) :
    kernel_run objs
        [Effect.unregister_netdev priv.netdev, Effect.usb_free_urb priv.rx_urb,
         Effect.usb_free_urb priv.tx_urb, Effect.free_netdev priv.netdev,
         Effect.pr_info_disconnected]
      = none := by
  simp [kernel_run, kernel_step, h]

/-! ## The attach handler -/

/-- C1, as stated, fails: on an interface whose descriptors are a control and an interrupt
endpoint (no bulk-in, no bulk-out) the attach handler does not fail; it returns `0` with no
effect, so no run of it returns a non-zero value. -/
theorem probe_missing_endpoint_succeeds :
    (∀ e ∈ scanned scenario_no_bulk,
        usb_endpoint_is_bulk_in e = false ∧ usb_endpoint_is_bulk_out e = false)
      ∧ usb_tether_probe scenario_no_bulk = some (0, [])
      ∧ ¬ ∃ ret log, usb_tether_probe scenario_no_bulk = some (ret, log) ∧ ret ≠ 0 := by
  refine ⟨by decide, by decide, ?_⟩
  rintro ⟨ret, log, h, hne⟩
  have h0 : usb_tether_probe scenario_no_bulk = some (0, []) := by decide
  rw [h0] at h
  cases h
  exact hne rfl

/-- C1, amended: for every endpoint descriptor list (also one with no bulk-in or no bulk-out
endpoint) the attach handler returns `0`, and none of its effects is an allocation, an
interface registration or a transfer submission. -/
theorem probe_returns_zero_without_resources (interface : usb_interface)
    (h : well_formed interface) :
    ∃ log, usb_tether_probe interface = some (0, log)
      ∧ ∀ e ∈ log, e.is_allocation = false ∧ e.is_registration = false
          ∧ e.is_submission = false := by
  refine ⟨_, usb_tether_probe_eq interface h, ?_⟩
  intro e he
  obtain ⟨epd, _, rfl⟩ := List.mem_map.mp he
  exact bulk_report_not_resource epd

/-- C1, amended, at the interface with a control and an interrupt endpoint only. -/
theorem probe_returns_zero_without_resources_witness :
    well_formed scenario_no_bulk
      ∧ ∃ log, usb_tether_probe scenario_no_bulk = some (0, log)
          ∧ ∀ e ∈ log, e.is_allocation = false ∧ e.is_registration = false
              ∧ e.is_submission = false :=
  ⟨by decide, probe_returns_zero_without_resources scenario_no_bulk (by decide)⟩

/-- C2, as stated, fails: on the descriptor list `[bulk-in@0x81, bulk-in@0x83, bulk-out@0x02]`
the attach handler reports two bulk-in endpoints, `0x81` and `0x83`, not exactly one. -/
theorem probe_reports_second_bulk_in :
    ∃ log, usb_tether_probe scenario_two_bulk_in = some (0, log)
      ∧ bulk_in_reports log = [0x81, 0x83]
      ∧ (bulk_in_reports log).length ≠ 1 :=
  ⟨[Effect.pr_info_bulk_in 0x81, Effect.pr_info_bulk_in 0x83, Effect.pr_info_bulk_out 0x02],
    by decide, by decide, by decide⟩

/-- C2, amended: when the descriptor list holds at least one bulk-in and at least one
bulk-out endpoint, the attach handler reports every bulk-in and every bulk-out endpoint in
descriptor order; the first bulk-in address it reports is that of the first bulk-in
endpoint in descriptor order, and the first bulk-out address it reports is that of the first
bulk-out endpoint; on `[control, bulk-in@0x81, bulk-out@0x02, interrupt]` it reports
exactly `0x81` as bulk-in and `0x02` as bulk-out. -/
theorem probe_reports_first_of_each_kind_first (interface : usb_interface)
    (h : well_formed interface)
    (hin : ∃ e ∈ scanned interface, usb_endpoint_is_bulk_in e = true)
    (hout : ∃ e ∈ scanned interface, usb_endpoint_is_bulk_out e = true) :
    (∃ log first_in first_out,
        usb_tether_probe interface = some (0, log)
        ∧ (scanned interface).find? usb_endpoint_is_bulk_in = some first_in
        ∧ (scanned interface).find? usb_endpoint_is_bulk_out = some first_out
        ∧ bulk_in_reports log
            = ((scanned interface).filter usb_endpoint_is_bulk_in).map
                (fun e => e.bEndpointAddress)
        ∧ bulk_out_reports log
            = ((scanned interface).filter usb_endpoint_is_bulk_out).map
                (fun e => e.bEndpointAddress)
        ∧ (bulk_in_reports log).head? = some first_in.bEndpointAddress
        ∧ (bulk_out_reports log).head? = some first_out.bEndpointAddress)
      ∧ usb_tether_probe scenario_attach
          = some (0, [Effect.pr_info_bulk_in 0x81, Effect.pr_info_bulk_out 0x02]) := by
  obtain ⟨first_in, hfin⟩ := find_of_exists _ _ hin
  obtain ⟨first_out, hfout⟩ := find_of_exists _ _ hout
  refine ⟨⟨_, first_in, first_out, usb_tether_probe_eq interface h, hfin, hfout,
    bulk_in_reports_map _, bulk_out_reports_map _, ?_, ?_⟩, by decide⟩
  · rw [bulk_in_reports_map, List.head?_map, head_filter_eq_find, hfin]; rfl
  · rw [bulk_out_reports_map, List.head?_map, head_filter_eq_find, hfout]; rfl

/-- C2, amended, at the spec's attach scenario. -/
theorem probe_reports_first_of_each_kind_first_witness :
    well_formed scenario_attach
      ∧ (∃ e ∈ scanned scenario_attach, usb_endpoint_is_bulk_in e = true)
      ∧ (∃ e ∈ scanned scenario_attach, usb_endpoint_is_bulk_out e = true)
      ∧ ((∃ log first_in first_out,
          usb_tether_probe scenario_attach = some (0, log)
          ∧ (scanned scenario_attach).find? usb_endpoint_is_bulk_in = some first_in
          ∧ (scanned scenario_attach).find? usb_endpoint_is_bulk_out = some first_out
          ∧ bulk_in_reports log
              = ((scanned scenario_attach).filter usb_endpoint_is_bulk_in).map
                  (fun e => e.bEndpointAddress)
          ∧ bulk_out_reports log
              = ((scanned scenario_attach).filter usb_endpoint_is_bulk_out).map
                  (fun e => e.bEndpointAddress)
          ∧ (bulk_in_reports log).head? = some first_in.bEndpointAddress
          ∧ (bulk_out_reports log).head? = some first_out.bEndpointAddress)
        ∧ usb_tether_probe scenario_attach
            = some (0, [Effect.pr_info_bulk_in 0x81, Effect.pr_info_bulk_out 0x02])) :=
  ⟨by decide, by decide, by decide,
    probe_reports_first_of_each_kind_first scenario_attach (by decide) (by decide)
      (by decide)⟩

/-- C10: on every endpoint descriptor list the attach handler returns after reporting, in
descriptor order, exactly the bulk endpoints among the first `bNumEndpoints` descriptors
(the list filtered to bulk transfer type), each with its own address and direction; every
line it prints is the line of a scanned bulk-in or bulk-out endpoint, so no control,
interrupt or isochronous endpoint is reported. -/
theorem probe_reports_bulk_endpoints_in_order (interface : usb_interface)
    (h : well_formed interface) :
    usb_tether_probe interface
        = some (0, ((scanned interface).filter usb_endpoint_xfer_bulk).map bulk_report)
      ∧ ∀ r ∈ ((scanned interface).filter usb_endpoint_xfer_bulk).map bulk_report,
          ∃ e ∈ scanned interface,
            (usb_endpoint_is_bulk_in e = true
                ∧ r = Effect.pr_info_bulk_in e.bEndpointAddress)
            ∨ (usb_endpoint_is_bulk_out e = true
                ∧ r = Effect.pr_info_bulk_out e.bEndpointAddress) := by
  refine ⟨usb_tether_probe_eq interface h, ?_⟩
  intro r hr
  obtain ⟨e, he, rfl⟩ := List.mem_map.mp hr
  obtain ⟨hmem, hb⟩ := List.mem_filter.mp he
  refine ⟨e, hmem, ?_⟩
  cases hd : usb_endpoint_dir_in e
  · right; simp [is_bulk_out_iff, hb, hd, bulk_report]
  · left; simp [is_bulk_in_iff, hb, hd, bulk_report]

/-- C10 at `[control, bulk-in@0x81, bulk-out@0x02, interrupt]`. -/
theorem probe_reports_bulk_endpoints_in_order_witness :
    well_formed scenario_attach
      ∧ (usb_tether_probe scenario_attach
          = some (0, ((scanned scenario_attach).filter usb_endpoint_xfer_bulk).map bulk_report)
        ∧ ∀ r ∈ ((scanned scenario_attach).filter usb_endpoint_xfer_bulk).map bulk_report,
            ∃ e ∈ scanned scenario_attach,
              (usb_endpoint_is_bulk_in e = true
                  ∧ r = Effect.pr_info_bulk_in e.bEndpointAddress)
              ∨ (usb_endpoint_is_bulk_out e = true
                  ∧ r = Effect.pr_info_bulk_out e.bEndpointAddress)) :=
  ⟨by decide, probe_reports_bulk_endpoints_in_order scenario_attach (by decide)⟩

/-! ## The receive completion handler -/

/-- C3: a receive completion with non-zero status performs no effect at all: no frame is
delivered (`netif_rx`), no frame buffer is allocated (`netdev_alloc_skb`) and the transfer
is not resubmitted (`usb_submit_urb`). -/
theorem rx_complete_error_does_nothing (K : Kernel) (u : urb) (h : u.status ≠ 0) :
    usb_tether_rx_complete K u = some [] := by
  simp [usb_tether_rx_complete, h]

/-- C3 at a cancelled transfer (status `-ENOENT`). -/
theorem rx_complete_error_does_nothing_witness :
    (urb_64 (-2)).status ≠ 0 ∧ usb_tether_rx_complete kernel_ok (urb_64 (-2)) = some [] :=
  ⟨by decide, rx_complete_error_does_nothing kernel_ok (urb_64 (-2)) (by decide)⟩

/-- C4, as stated, fails: on a successful completion of 64 bytes the buffer delivered to
`netif_rx` has `len = 50`, not 64, and its data are bytes 14 to 63 of the transfer buffer,
not its first 64 bytes: `eth_type_trans` has pulled the 14-byte Ethernet header before the
delivery. -/
theorem rx_complete_delivers_pulled_frame :
    ∃ frame : sk_buff,
      usb_tether_rx_complete kernel_ok (urb_64 0)
          = some [Effect.netdev_alloc_skb 7 64 9, Effect.netif_rx frame,
                  Effect.usb_submit_urb 1]
      ∧ frame.len = 50
      ∧ frame.len ≠ (urb_64 0).actual_length
      ∧ frame.data = ((urb_64 0).transfer_buffer.take 64).drop 14
      ∧ frame.data ≠ (urb_64 0).transfer_buffer.take (urb_64 0).actual_length :=
  ⟨{ addr := 9, mac_header := List.range 14, data := (List.range 64).drop 14, len := 50,
     protocol := 0x0800, dev := 7 },
    by decide, by decide, by decide, by decide, by decide⟩

/-- C4, amended: on a successful completion of `n = actual_length` bytes whose frame-buffer
allocation succeeds, the handler performs exactly three effects in this order: the
allocation, one delivery, and one resubmission of the same urb.  The delivered buffer holds
the first `n` bytes of the transfer buffer, mac header and data together.  When
`n` is at least `ETH_HLEN = 14` the first 14 bytes are the pulled Ethernet header, and at
delivery `len` is `n - 14` and the data are bytes `14` to `n - 1`; when `n` is below 14
nothing is pulled, `len` is `n` and the data are the first `n` bytes. -/
theorem rx_complete_delivers_then_resubmits (K : Kernel) (u : urb) (priv : usb_tether_priv)
    (hstatus : u.status = 0) (hctx : u.context = some priv)
    (halloc : K.netdev_alloc_skb priv.netdev u.actual_length ≠ 0)
    (hlen : u.actual_length ≤ u.transfer_buffer.length) :
    ∃ frame : sk_buff,
      usb_tether_rx_complete K u
          = some [Effect.netdev_alloc_skb priv.netdev u.actual_length
                    (K.netdev_alloc_skb priv.netdev u.actual_length),
                  Effect.netif_rx frame,
                  Effect.usb_submit_urb u.addr]
      ∧ frame.mac_header ++ frame.data = u.transfer_buffer.take u.actual_length
      ∧ frame.data.length = frame.len
      ∧ (ETH_HLEN ≤ u.actual_length →
          frame.len = u.actual_length - ETH_HLEN
          ∧ frame.mac_header = (u.transfer_buffer.take u.actual_length).take ETH_HLEN
          ∧ frame.data = (u.transfer_buffer.take u.actual_length).drop ETH_HLEN)
      ∧ (u.actual_length < ETH_HLEN →
          frame.len = u.actual_length
          ∧ frame.mac_header = []
          ∧ frame.data = u.transfer_buffer.take u.actual_length) := by
  have hnot : ¬ u.transfer_buffer.length < u.actual_length := by omega
  have hrun : usb_tether_rx_complete K u
      = some [Effect.netdev_alloc_skb priv.netdev u.actual_length
                (K.netdev_alloc_skb priv.netdev u.actual_length),
              Effect.netif_rx
                { (skb_pull_inline
                    { addr := K.netdev_alloc_skb priv.netdev u.actual_length,
                      mac_header := [], data := u.transfer_buffer.take u.actual_length,
                      len := u.actual_length, protocol := 0, dev := priv.netdev }
                    ETH_HLEN) with
                  protocol := K.eth_proto (u.transfer_buffer.take u.actual_length)
                    priv.netdev },
              Effect.usb_submit_urb u.addr] := by
    simp [usb_tether_rx_complete, hstatus, hctx, halloc, skb_put_memcpy, fresh_skb, hnot,
      eth_type_trans]
  refine ⟨_, hrun, ?_⟩
  by_cases hn : ETH_HLEN ≤ u.actual_length
  · have hgt : ¬ ETH_HLEN > u.actual_length := by omega
    have hlt : ¬ u.actual_length < ETH_HLEN := by omega
    simp [skb_pull_inline, hgt, hlt, hn, List.length_take, hlen]
  · have hgt : ETH_HLEN > u.actual_length := by omega
    have hlt : u.actual_length < ETH_HLEN := by omega
    simp [skb_pull_inline, hgt, hlt, hn, List.length_take, hlen]

/-- C4, amended, at `actual_length = 64`. -/
theorem rx_complete_delivers_then_resubmits_witness :
    (urb_64 0).status = 0 ∧ (urb_64 0).context = some session_7
      ∧ kernel_ok.netdev_alloc_skb session_7.netdev (urb_64 0).actual_length ≠ 0
      ∧ (urb_64 0).actual_length ≤ (urb_64 0).transfer_buffer.length
      ∧ ∃ frame : sk_buff,
          usb_tether_rx_complete kernel_ok (urb_64 0)
              = some [Effect.netdev_alloc_skb session_7.netdev (urb_64 0).actual_length
                        (kernel_ok.netdev_alloc_skb session_7.netdev (urb_64 0).actual_length),
                      Effect.netif_rx frame,
                      Effect.usb_submit_urb (urb_64 0).addr]
          ∧ frame.mac_header ++ frame.data
              = (urb_64 0).transfer_buffer.take (urb_64 0).actual_length
          ∧ frame.data.length = frame.len
          ∧ (ETH_HLEN ≤ (urb_64 0).actual_length →
              frame.len = (urb_64 0).actual_length - ETH_HLEN
              ∧ frame.mac_header
                  = ((urb_64 0).transfer_buffer.take (urb_64 0).actual_length).take ETH_HLEN
              ∧ frame.data
                  = ((urb_64 0).transfer_buffer.take (urb_64 0).actual_length).drop ETH_HLEN)
          ∧ ((urb_64 0).actual_length < ETH_HLEN →
              frame.len = (urb_64 0).actual_length
              ∧ frame.mac_header = []
              ∧ frame.data = (urb_64 0).transfer_buffer.take (urb_64 0).actual_length) :=
  ⟨by decide, by decide, by decide, by decide,
    rx_complete_delivers_then_resubmits kernel_ok (urb_64 0) session_7 (by decide) (by decide)
      (by decide) (by decide)⟩

/-- C5, the code at the failing input: a successful 64-byte completion whose frame-buffer
allocation fails.  The handler returns right after the failed allocation: the only effect
is the `netdev_alloc_skb` call, and the urb is not resubmitted. -/
theorem rx_complete_alloc_failure_no_resubmit :
    ∃ effects, usb_tether_rx_complete kernel_no_skb (urb_64 0) = some effects
      ∧ effects = [Effect.netdev_alloc_skb 7 64 0]
      ∧ Effect.usb_submit_urb (urb_64 0).addr ∉ effects
      ∧ ∀ e ∈ effects, e.is_submission = false ∧ e.is_delivery = false :=
  ⟨[Effect.netdev_alloc_skb 7 64 0], by decide, rfl, by decide, by decide⟩

/-! ## The transmit entry point -/

/-- C6, the code at the failing input: a transmit call on the buffer at address `9`.  The
only effect is the member call `skb->dev_kfree_skb(skb)`; the kernel primitive
`dev_kfree_skb` is called zero times on the buffer, and the call returns `NETDEV_TX_OK`. -/
theorem xmit_never_calls_dev_kfree_skb :
    usb_tether_xmit skb_9 7 = (NETDEV_TX_OK, [Effect.skb_member_call 9 9])
      ∧ (usb_tether_xmit skb_9 7).2.count (Effect.dev_kfree_skb skb_9.addr) = 0 := by
  decide

/-! ## The detach handler -/

/-- C7, as stated, fails: detaching the session with receive urb `1` and transmit urb `2`
cancels neither; no effect of the handler is a cancellation. -/
theorem disconnect_cancels_nothing :
    ∃ effects, usb_tether_disconnect bound_interface = some (bound_interface, effects)
      ∧ Effect.usb_kill_urb session_7.rx_urb ∉ effects
      ∧ Effect.usb_kill_urb session_7.tx_urb ∉ effects
      ∧ ∀ e ∈ effects, e.is_cancellation = false :=
  ⟨[Effect.unregister_netdev 7, Effect.usb_free_urb 1, Effect.usb_free_urb 2,
    Effect.free_netdev 7, Effect.pr_info_disconnected],
    by decide, by decide, by decide, by decide⟩

/-- C7, amended: for every session the detach handler performs, in this order, the
unregistration of the network interface, the release of the receive urb, the release of the
transmit urb, the release of the interface's memory, and a log line.  The unregistration is
the first effect, and the urbs are released without being cancelled. -/
theorem disconnect_effects_in_order (interface : usb_interface) (priv : usb_tether_priv)
    (h : interface.intfdata = some priv) :
    ∃ effects, usb_tether_disconnect interface = some (interface, effects)
      ∧ effects
          = [Effect.unregister_netdev priv.netdev, Effect.usb_free_urb priv.rx_urb,
             Effect.usb_free_urb priv.tx_urb, Effect.free_netdev priv.netdev,
             Effect.pr_info_disconnected]
      ∧ effects.head? = some (Effect.unregister_netdev priv.netdev)
      ∧ ∀ e ∈ effects, e.is_cancellation = false := by
  refine ⟨_, usb_tether_disconnect_eq interface priv h, rfl, rfl, ?_⟩
  intro e he
  simp only [List.mem_cons, List.mem_singleton, List.not_mem_nil, or_false] at he
  rcases he with rfl | rfl | rfl | rfl | rfl <;> rfl

/-- C7, amended, at the session with network device `7`, receive urb `1`, transmit urb `2`. -/
theorem disconnect_effects_in_order_witness :
    bound_interface.intfdata = some session_7
      ∧ ∃ effects, usb_tether_disconnect bound_interface = some (bound_interface, effects)
          ∧ effects
              = [Effect.unregister_netdev session_7.netdev, Effect.usb_free_urb session_7.rx_urb,
                 Effect.usb_free_urb session_7.tx_urb, Effect.free_netdev session_7.netdev,
                 Effect.pr_info_disconnected]
          ∧ effects.head? = some (Effect.unregister_netdev session_7.netdev)
          ∧ ∀ e ∈ effects, e.is_cancellation = false :=
  ⟨by decide, disconnect_effects_in_order bound_interface session_7 (by decide)⟩

/-- C8, as stated, fails: on the live session with network device `7`, receive urb `1` and
transmit urb `2`, one detach run succeeds and releases the three objects, but two runs in a
row do not end in the state one run leaves: the second run is not a run without effect, its
first effect is again `unregister_netdev` on device `7`, which by then is released. -/
theorem disconnect_second_run_on_released_session :
    session_live objects_7 session_7
      ∧ detach bound_interface objects_7
          = some (bound_interface, { netdevs := [], registered := [], urbs := [] },
              [Effect.unregister_netdev 7, Effect.usb_free_urb 1, Effect.usb_free_urb 2,
               Effect.free_netdev 7, Effect.pr_info_disconnected])
      ∧ detach_twice bound_interface objects_7 = none
      ∧ (usb_tether_disconnect bound_interface).map (fun r => r.2.head?)
          = some (some (Effect.unregister_netdev 7))
      ∧ kernel_step { netdevs := [], registered := [], urbs := [] }
          (Effect.unregister_netdev 7) = none := by
  decide

/-- C8, amended: detach is not idempotent and has no guard.  One run of the detach handler on
a session whose network device and urbs are live performs the unregistration and the three
releases: afterwards the device and both urbs are released, and the session is unchanged,
still storing their addresses.  A second run on that session is therefore not a run without
effect: it starts by unregistering the released device, which is outside what the kernel
defines, so two runs in a row have no result. -/
theorem disconnect_once_releases_second_run_undefined (interface : usb_interface)
    (priv : usb_tether_priv) (objs : KernelObjects)
    (h : interface.intfdata = some priv) (hlive : session_live objs priv) :
    ∃ objs1 effects,
      detach interface objs = some (interface, objs1, effects)
        ∧ effects
            = [Effect.unregister_netdev priv.netdev, Effect.usb_free_urb priv.rx_urb,
               Effect.usb_free_urb priv.tx_urb, Effect.free_netdev priv.netdev,
               Effect.pr_info_disconnected]
        ∧ priv.netdev ∉ objs1.netdevs
        ∧ priv.netdev ∉ objs1.registered
        ∧ priv.rx_urb ∉ objs1.urbs
        ∧ priv.tx_urb ∉ objs1.urbs
        ∧ detach interface objs1 = none
        ∧ detach_twice interface objs = none := by
  have hrun := kernel_run_disconnect objs priv hlive
  have hrel : priv.netdev ∉ release priv.netdev objs.netdevs := by simp [mem_release]
  have hsecond := kernel_run_disconnect_released
    { netdevs := release priv.netdev objs.netdevs,
      registered := release priv.netdev objs.registered,
      urbs := release priv.tx_urb (release priv.rx_urb objs.urbs) } priv hrel
  have hfirst : detach interface objs
      = some (interface,
          { netdevs := release priv.netdev objs.netdevs,
            registered := release priv.netdev objs.registered,
            urbs := release priv.tx_urb (release priv.rx_urb objs.urbs) },
          [Effect.unregister_netdev priv.netdev, Effect.usb_free_urb priv.rx_urb,
           Effect.usb_free_urb priv.tx_urb, Effect.free_netdev priv.netdev,
           Effect.pr_info_disconnected]) := by
    simp [detach, usb_tether_disconnect_eq interface priv h, hrun]
  have hagain : detach interface
      { netdevs := release priv.netdev objs.netdevs,
        registered := release priv.netdev objs.registered,
        urbs := release priv.tx_urb (release priv.rx_urb objs.urbs) } = none := by
    simp [detach, usb_tether_disconnect_eq interface priv h, hsecond]
  refine ⟨_, _, hfirst, rfl, hrel, ?_, ?_, ?_, hagain, ?_⟩
  · simp [mem_release]
  · simp [mem_release]
  · simp [mem_release]
  · simp [detach_twice, hfirst, hagain]

/-- C8, amended, at the session with network device `7`, receive urb `1`, transmit urb `2`. -/
theorem disconnect_once_releases_second_run_undefined_witness :
    bound_interface.intfdata = some session_7 ∧ session_live objects_7 session_7
      ∧ ∃ objs1 effects,
          detach bound_interface objects_7 = some (bound_interface, objs1, effects)
            ∧ effects
                = [Effect.unregister_netdev session_7.netdev,
                   Effect.usb_free_urb session_7.rx_urb,
                   Effect.usb_free_urb session_7.tx_urb, Effect.free_netdev session_7.netdev,
                   Effect.pr_info_disconnected]
            ∧ session_7.netdev ∉ objs1.netdevs
            ∧ session_7.netdev ∉ objs1.registered
            ∧ session_7.rx_urb ∉ objs1.urbs
            ∧ session_7.tx_urb ∉ objs1.urbs
            ∧ detach bound_interface objs1 = none
            ∧ detach_twice bound_interface objects_7 = none :=
  ⟨by decide, by decide,
    disconnect_once_releases_second_run_undefined bound_interface session_7 objects_7
      (by decide) (by decide)⟩

/-! ## Interface set-up -/

/-- C9, the code at the failing input: allocation succeeds (device `7`) and registration
fails with `-16`.  The error is returned, but the effects end with the failed registration
(device `7` is not released) and the session keeps `7` as its stored interface handle.
When the allocation fails the call returns `-ENOMEM` and the session is unchanged. -/
theorem setup_net_device_registration_failure_keeps_netdev :
    setup_net_device kernel_register_fails session_fresh
        = (-16, { netdev := 7, rx_urb := 0, tx_urb := 0 },
            [Effect.alloc_etherdev 7, Effect.set_netdev_ops 7,
             Effect.register_netdev 7 (-16)])
      ∧ Effect.free_netdev 7 ∉ (setup_net_device kernel_register_fails session_fresh).2.2
      ∧ (setup_net_device kernel_register_fails session_fresh).2.1.netdev ≠ 0
      ∧ setup_net_device kernel_no_netdev session_fresh
          = (-ENOMEM, session_fresh, [Effect.alloc_etherdev 0]) := by
  decide

end UsbTether
